import Mathlib

/-!
Verification of the WBS → Cloudflare D1 loader (repository `cloudflare_db_test`).

The repository ships two loader variants:
* `wbs_loader.py` (namespace `V1` below): the two-column loader built around
  `WBSD1Manager.batch_insert_wbs_records` / `_process_batch` /
  `_fallback_batch_individual_inserts`.
* `wbs_loader_v2.py` (namespace `V2` below): the 23-column loader built around
  `D1Client.query`, `WBSDataProcessor` (normalization), and
  `WBSBulkLoader.bulk_insert_data` / `_insert_batch_individually`.

The embedding models remote behaviour with explicit oracles: each remote call's
observable outcome (parsed response envelope, HTTP error, raised exception) is an
input, and the loader logic is translated as pure functions of those inputs.
Python integers are `Int`, counters that the source keeps non-negative are `Nat`,
and Python float division is modelled over `ℚ` with an explicit
division-by-zero marker.
-/

namespace CloudflareDbTest

/-- Python `str.strip()`: drop leading and trailing whitespace characters. -/
def pyStrip (s : String) : String :=
  ⟨((s.data.dropWhile Char.isWhitespace).reverse.dropWhile Char.isWhitespace).reverse⟩

/-- Python `str.upper()` on the ASCII data the loader handles. -/
def pyUpper (s : String) : String :=
  ⟨s.data.map Char.toUpper⟩

/-- Python float division `a / b`, which raises `ZeroDivisionError` when `b = 0`;
`none` models the raised exception. -/
def pydiv (a b : ℚ) : Option ℚ :=
  if b = 0 then none else some (a / b)

/-- One element of the D1 response `result` array: the `results` row list (each row a
mapping from column name to value) and the `meta.changes` changed-row count. -/
structure QueryResult where
  results : List (List (String × Option String))
  changes : Int
deriving Repr, DecidableEq

/-- The D1 JSON response envelope `{"success": …, "result": […], "errors": […]}` as
parsed by both clients (a missing `success` key parses as `false`). -/
structure Envelope where
  success : Bool
  result : List QueryResult
  errors : List String
deriving Repr, DecidableEq

/-- Fuel-driven worker for `chunkList`; the fuel is the input length, so the fuel
never runs out on the chunking the loaders perform. -/
def chunkGo (batchSize : Nat) : Nat → List α → List (List α)
  | _, [] => []
  | 0, l => [l]
  | fuel + 1, x :: xs =>
    (x :: xs.take (batchSize - 1)) :: chunkGo batchSize fuel (xs.drop (batchSize - 1))

/-- The batch slicing `records[batch_start:batch_end]` for
`batch_start in range(0, len(records), batch_size)`, shared by
`batch_insert_wbs_records` (v1) and `bulk_insert_data` (v2): the list of contiguous
slices of size `batchSize` (last one possibly shorter). -/
def chunkList (batchSize : Nat) (l : List α) : List (List α) :=
  chunkGo batchSize l.length l

theorem chunkGo_flatten (batchSize : Nat) (fuel : Nat) :
    ∀ l : List α, l.length ≤ fuel → (chunkGo batchSize fuel l).flatten = l := by
  induction fuel with
  | zero =>
    intro l h
    cases l with
    | nil => rfl
    | cons x xs => simp at h
  | succ n ih =>
    intro l h
    cases l with
    | nil => rfl
    | cons x xs =>
      rw [chunkGo]
      rw [List.flatten_cons]
      rw [ih (xs.drop (batchSize - 1)) (by simp [List.length_drop, List.length_cons] at h ⊢; omega)]
      rw [List.cons_append, List.take_append_drop]

/-- Every input element lands in exactly one contiguous batch: concatenating the
batches in order gives back the input sequence. -/
theorem chunkList_flatten (batchSize : Nat) (l : List α) :
    (chunkList batchSize l).flatten = l :=
  chunkGo_flatten batchSize l.length l le_rfl

namespace V1

/-- One record handed to `WBSD1Manager` in `wbs_loader.py`: the two columns the v1
loader maps into the `wbs` table (`WBS_ELEMENT_CDE` and `WBS_ELEMENT_NME`), with
`none` for an absent or empty value. -/
structure WbsRec where
  wbsCode : Option String
  wbsDesc : Option String
deriving Repr, DecidableEq

/-- `result.get("result", [])[0].get("meta", {}).get("changes", 0)`: the changed-row
count of the first element of the response's `result` array, `0` when the array is
empty (the same extraction appears in `_process_batch` and in
`_fallback_batch_individual_inserts`). -/
def extractChanges (env : Envelope) : Int :=
  match env.result with
  | [] => 0
  | q :: _ => q.changes

/-- Outcome of a single `d1.query` call as seen by its caller: either the parsed
response envelope, or a raised exception. -/
inductive QueryOutcome where
  | resp (env : Envelope)
  | exc
deriving Repr, DecidableEq

/-- Remote behaviour for one batch: outcome of the bulk statement; when the bulk
statement raises, `f i` is the outcome of the conditional-insert query for the
batch's `i`-th record in the fallback loop. -/
inductive BatchBehavior where
  | resp (env : Envelope)
  | exc (f : Nat → QueryOutcome)

/-- Counters a batch contributes in v1: successful and skipped as in the returned
tuple (Python ints), plus the number of HTTP queries issued while processing it. -/
structure BatchResult where
  successful : Int
  skipped : Int
  queries : Nat
deriving Repr, DecidableEq

/-- `WBSD1Manager._fallback_batch_individual_inserts`: one conditional
`INSERT … WHERE NOT EXISTS` per record, in order; a response with a positive
changed-row count increments `successful_count`, a response with zero changes
increments `skipped_count`, and a raised exception is caught and also increments
`skipped_count`; the loop always continues with the next record. -/
def fallbackBatchIndividualInserts (f : Nat → QueryOutcome) : List WbsRec → BatchResult
  | [] => ⟨0, 0, 0⟩
  | _ :: rs =>
    let rest := fallbackBatchIndividualInserts (fun i => f (i + 1)) rs
    match f 0 with
    | .resp env =>
      if 0 < extractChanges env then ⟨rest.successful + 1, rest.skipped, rest.queries + 1⟩
      else ⟨rest.successful, rest.skipped + 1, rest.queries + 1⟩
    | .exc => ⟨rest.successful, rest.skipped + 1, rest.queries + 1⟩

/-- `WBSD1Manager._process_batch`: attempt the single bulk `INSERT OR IGNORE`; on a
response, report `changes` new and `len(records) - changes` skipped; on a raised
exception, fall back to `_fallback_batch_individual_inserts` for the whole batch. -/
def processBatch (b : BatchBehavior) (records : List WbsRec) : BatchResult :=
  match b with
  | .resp env =>
    let changes := extractChanges env
    ⟨changes, (records.length : Int) - changes, 1⟩
  | .exc f =>
    let r := fallbackBatchIndividualInserts f records
    ⟨r.successful, r.skipped, r.queries + 1⟩

/-- The batch loop of `batch_insert_wbs_records` over the already-sliced batches,
accumulating `total_successful` and `total_skipped`; batch `k` observes remote
behaviour `oracle k`. -/
def runBatches (oracle : Nat → BatchBehavior) : List (List WbsRec) → BatchResult
  | [] => ⟨0, 0, 0⟩
  | b :: bs =>
    let r := processBatch (oracle 0) b
    let rest := runBatches (fun i => oracle (i + 1)) bs
    ⟨r.successful + rest.successful, r.skipped + rest.skipped, r.queries + rest.queries⟩

/-- The `(successful_count, skipped_count, method_used)` result of
`batch_insert_wbs_records`, extended with the number of HTTP queries issued. -/
structure LoadOutcome where
  successful : Int
  skipped : Int
  queries : Nat
  method : String
deriving Repr, DecidableEq

/-- `WBSD1Manager.batch_insert_wbs_records`: empty input returns `(0, 0, "No records")`
before any remote call; otherwise the records are sliced into contiguous batches of
`batch_size` and each batch is processed by `_process_batch` in order. -/
def batchInsertWbsRecords (oracle : Nat → BatchBehavior) (records : List WbsRec)
    (batchSize : Nat) : LoadOutcome :=
  if records.isEmpty then ⟨0, 0, 0, "No records"⟩
  else
    let batches := chunkList batchSize records
    let r := runBatches oracle batches
    let n := batches.length
    ⟨r.successful, r.skipped, r.queries, s!"Bulk INSERT OR IGNORE ({n} batches)"⟩

/-- The performance-metrics block of `main` in `wbs_loader.py` (lines 492-494):
the two divisions `elapsed_time / successful` and `successful / elapsed_time` run
only under the guard `if successful > 0`. `some none` means the block was skipped,
`some (some (avg, rate))` means both divisions succeeded, and `none` means a
`ZeroDivisionError` was raised. -/
def perfMetrics (successful : Int) (elapsed : ℚ) : Option (Option (ℚ × ℚ)) :=
  if 0 < successful then
    match pydiv elapsed (successful : ℚ), pydiv (successful : ℚ) elapsed with
    | some avg, some rate => some (some (avg, rate))
    | _, _ => none
  else some none

end V1

namespace V2

/-- Transport-level outcome of the single HTTP POST inside `D1Client.query` of
`wbs_loader_v2.py`: a parsed JSON body of a non-error response, an
`urllib.error.HTTPError` (status ≥ 400) with its body, or any other exception
(network failure, timeout) with its message. -/
inductive HttpOutcome where
  | ok (body : Envelope)
  | httpError (code : Nat) (body : String)
  | transportError (msg : String)

/-- The failures `D1Client.query` raises (all `RuntimeError`s in the source),
distinguished by the data their messages carry. -/
inductive D1Error where
  | remoteFailure (code : Nat) (body : String)
  | queryFailure (errors : List String)
  | transportFailure (msg : String)
deriving Repr, DecidableEq

/-- `D1Client.query`: an `HTTPError` becomes a failure carrying status code and
response body; any other transport exception becomes a transport failure; a parsed
body whose `success` flag is false becomes a failure carrying the `errors` list;
otherwise the parsed envelope is returned verbatim. -/
def d1Query : HttpOutcome → Except D1Error Envelope
  | .ok env => if env.success then .ok env else .error (.queryFailure env.errors)
  | .httpError code body => .error (.remoteFailure code body)
  | .transportError msg => .error (.transportFailure msg)

/-- Number of HTTP requests one `D1Client.query` call performs: the body contains a
single `urlopen` call and no retry loop, so every call issues exactly one request. -/
def d1QueryRequestCount (_ : HttpOutcome) : Nat := 1

/-- `WBSDataProcessor._normalize_indicator`: `none` models a pandas-NA / None cell;
otherwise the value is stripped, upper-cased, and matched against the Y-set and the
N-set, with everything else mapped to null. -/
def normalizeIndicator : Option String → Option String
  | none => none
  | some v =>
    let s := pyUpper (pyStrip v)
    if s ∈ ["Y", "YES", "TRUE", "1"] then some "Y"
    else if s ∈ ["N", "NO", "FALSE", "0"] then some "N"
    else none

/-- `strftime`-style zero-padded two-digit field (`%H`, `%M`, `%S`, `%m`, `%d`). -/
def pad2 (n : Nat) : String :=
  if n < 10 then "0" ++ toString n else toString n

/-- `strftime`-style zero-padded four-digit year field (`%Y`). -/
def pad4 (n : Nat) : String :=
  if n < 10 then "000" ++ toString n
  else if n < 100 then "00" ++ toString n
  else if n < 1000 then "0" ++ toString n
  else toString n

/-- A raw cell of a declared-datetime column (`CREATE_DATE`, `LAST_UPDATE_DATE`):
pandas NA / None, a `datetime.time`, a `datetime.datetime`, a string, or a value of
any other type whose Python `str()` rendering is the carried string (for example the
integer `42` with rendering `"42"`). -/
inductive DtValue where
  | null
  | timeVal (h m s : Nat)
  | datetimeVal (y mo d h mi s : Nat)
  | strVal (s : String)
  | otherVal (r : String)
deriving Repr, DecidableEq

/-- `WBSDataProcessor._format_datetime_value`: NA/None → null; `datetime.time` →
`strftime('%H:%M:%S')`; `datetime.datetime` → `strftime('%Y-%m-%d %H:%M:%S')`;
a string is stripped and kept when non-empty, null when empty; any other value is
returned as `str(value)`. -/
def formatDatetimeValue : DtValue → Option String
  | .null => none
  | .timeVal h m s => some (pad2 h ++ ":" ++ pad2 m ++ ":" ++ pad2 s)
  | .datetimeVal y mo d h mi s =>
    some (pad4 y ++ "-" ++ pad2 mo ++ "-" ++ pad2 d ++ " " ++
      pad2 h ++ ":" ++ pad2 mi ++ ":" ++ pad2 s)
  | .strVal s => if pyStrip s = "" then none else some (pyStrip s)
  | .otherVal r => some r

/-- A cleaned row as it reaches step 5 of `WBSDataProcessor.clean_and_validate_data`:
the natural-key column `WBS_ELEMENT_CDE`, the `WBS_ELEMENT_NME` column, and the
remaining cleaned columns, each `none` when null. -/
structure Row where
  cde : Option String
  nme : Option String
  rest : List (Option String)
deriving Repr, DecidableEq

/-- pandas `df['WBS_ELEMENT_CDE'].duplicated().sum()` with the keys seen so far made
explicit: counts the rows whose key already occurred in an earlier row (pandas treats
two NA keys as duplicates of each other, hence plain equality on `Option String`). -/
def dupCountAux (seen : List (Option String)) : List Row → Nat
  | [] => 0
  | r :: rs => (if r.cde ∈ seen then 1 else 0) + dupCountAux (r.cde :: seen) rs

/-- pandas `df.drop_duplicates(subset=['WBS_ELEMENT_CDE'], keep='first')`: keep a row
exactly when its key did not occur in any earlier row. -/
def dropDupAux (seen : List (Option String)) : List Row → List Row
  | [] => []
  | r :: rs =>
    if r.cde ∈ seen then dropDupAux (r.cde :: seen) rs
    else r :: dropDupAux (r.cde :: seen) rs

/-- Step 5 of `WBSDataProcessor.clean_and_validate_data`: count the duplicated
natural keys, and when the count is positive drop every occurrence after the first;
returns the surviving rows together with the reported duplicate count. -/
def dedupStep (rows : List Row) : List Row × Nat :=
  let d := dupCountAux [] rows
  if 0 < d then (dropDupAux [] rows, d) else (rows, d)

/-- Outcome of one individual insert inside `WBSBulkLoader._insert_batch_individually`:
the query call returned, or it raised an exception. -/
inductive InsOutcome where
  | ok
  | exc
deriving Repr, DecidableEq

/-- `WBSBulkLoader._insert_batch_individually`: one insert per record of the batch, in
order, with `f i` the outcome for the `i`-th record; an exception is caught, increments
`failures`, and the loop continues; the failure count is returned. -/
def insertBatchIndividually (f : Nat → InsOutcome) : List Row → Nat
  | [] => 0
  | _ :: rs =>
    let rest := insertBatchIndividually (fun i => f (i + 1)) rs
    match f 0 with
    | .ok => rest
    | .exc => rest + 1

/-- Remote behaviour for one batch of `WBSBulkLoader.bulk_insert_data`: either every
query of `_execute_batch_queries` succeeded, or one raised, in which case `f i` is the
outcome of the fallback insert for the batch's `i`-th record. -/
inductive BulkBatchBehavior where
  | ok
  | fail (f : Nat → InsOutcome)

/-- The `failed_records` accumulation of `bulk_insert_data` (lines 396-403): on a batch
failure, `failed_records += len(batch_df)`, then after the individual fallback
`failed_records = failed_records - len(batch_df) + individual_failures`. -/
def runBatchesV2 (oracle : Nat → BulkBatchBehavior) (failed : Nat) :
    List (List Row) → Nat
  | [] => failed
  | b :: bs =>
    let failed2 :=
      match oracle 0 with
      | .ok => failed
      | .fail f => failed + b.length - b.length + insertBatchIndividually f b
    runBatchesV2 (fun i => oracle (i + 1)) failed2 bs

/-- The final accounting of `WBSBulkLoader.bulk_insert_data`:
`successful_records = total_records - failed_records`, returned as
`(successful_records, failed_records)`. -/
def bulkInsertData (oracle : Nat → BulkBatchBehavior) (rows : List Row)
    (batchSize : Nat) : Int × Nat :=
  let failed := runBatchesV2 oracle 0 (chunkList batchSize rows)
  ((rows.length : Int) - (failed : Int), failed)

/-- The unguarded average-rate division of `bulk_insert_data`'s final statistics
(line 413): `successful_records / total_time`. -/
def avgRateStat (successful : Int) (elapsed : ℚ) : Option ℚ :=
  pydiv (successful : ℚ) elapsed

/-- `D1Config`: the immutable (frozen dataclass) configuration triple. -/
structure D1Config where
  accountId : String
  databaseId : String
  apiToken : String
deriving Repr, DecidableEq

/-- The three environment variables `D1Config.from_env` reads via `os.getenv`;
`none` models an unset variable. -/
structure EnvVars where
  cfAccountId : Option String
  cfD1DatabaseId : Option String
  cfApiToken : Option String
deriving Repr, DecidableEq

/-- Python falsiness of an `os.getenv` result, as tested by `if not account_id`:
true exactly for `None` and the empty string. -/
def isBlank : Option String → Bool
  | none => true
  | some s => s == ""

/-- `D1Config.from_env`: collect the names of the falsy settings in declaration order;
raise (model: `Except.error`) carrying exactly that list when it is non-empty,
otherwise return the configuration triple built from the read values. -/
def fromEnv (e : EnvVars) : Except (List String) D1Config :=
  let missing :=
    (if isBlank e.cfAccountId then ["CF_ACCOUNT_ID"] else []) ++
      (if isBlank e.cfD1DatabaseId then ["CF_D1_DATABASE_ID"] else []) ++
      (if isBlank e.cfApiToken then ["CF_API_TOKEN"] else [])
  if missing.isEmpty then
    .ok ⟨e.cfAccountId.getD "", e.cfD1DatabaseId.getD "", e.cfApiToken.getD ""⟩
  else
    .error missing

end V2

/-! ## Helper lemmas -/

theorem fallback_sum (f : Nat → V1.QueryOutcome) (rs : List V1.WbsRec) :
    (V1.fallbackBatchIndividualInserts f rs).successful
      + (V1.fallbackBatchIndividualInserts f rs).skipped = (rs.length : Int) := by
  induction rs generalizing f with
  | nil => simp [V1.fallbackBatchIndividualInserts]
  | cons r rs ih =>
    have h := ih (fun i => f (i + 1))
    cases hf : f 0 with
    | resp env =>
      by_cases hc : 0 < V1.extractChanges env
      · simp only [V1.fallbackBatchIndividualInserts, hf, if_pos hc, List.length_cons]
        push_cast
        omega
      · simp only [V1.fallbackBatchIndividualInserts, hf, if_neg hc, List.length_cons]
        push_cast
        omega
    | exc =>
      simp only [V1.fallbackBatchIndividualInserts, hf, List.length_cons]
      push_cast
      omega

theorem processBatch_sum (b : V1.BatchBehavior) (records : List V1.WbsRec) :
    (V1.processBatch b records).successful + (V1.processBatch b records).skipped
      = (records.length : Int) := by
  cases b with
  | resp env => simp [V1.processBatch]
  | exc f => simpa [V1.processBatch] using fallback_sum f records

theorem runBatches_sum (oracle : Nat → V1.BatchBehavior) (bs : List (List V1.WbsRec)) :
    (V1.runBatches oracle bs).successful + (V1.runBatches oracle bs).skipped
      = ((bs.map List.length).sum : Int) := by
  induction bs generalizing oracle with
  | nil => simp [V1.runBatches]
  | cons b rest ih =>
    have h1 := processBatch_sum (oracle 0) b
    have h2 := ih (fun i => oracle (i + 1))
    simp only [V1.runBatches, List.map_cons, List.sum_cons]
    push_cast
    push_cast at h1 h2
    omega

/-! ## Claims -/

/-- C1: for every batch whose bulk insert-or-ignore statement succeeds,
`_process_batch` counts as inserted exactly the changed-row count `meta.changes`
reported in the first element of the response's `result` array, and counts as
skipped the number of records in the batch minus that changed-row count. -/
theorem claim_C1 (records : List V1.WbsRec) (env : Envelope) (q : QueryResult)
    (qs : List QueryResult) (hres : env.result = q :: qs) :
    (V1.processBatch (.resp env) records).successful = q.changes ∧
    (V1.processBatch (.resp env) records).skipped
      = (records.length : Int) - q.changes := by
  simp [V1.processBatch, V1.extractChanges, hres]

/-- Witness for C1: a successful bulk response with `meta.changes = 2` over a
3-record batch yields 2 inserted and 1 skipped. -/
theorem claim_C1_witness :
    (V1.processBatch (.resp ⟨true, [⟨[], 2⟩], []⟩)
        [⟨some "A", some "a"⟩, ⟨some "B", some "b"⟩, ⟨some "C", some "c"⟩]).successful = 2 ∧
    (V1.processBatch (.resp ⟨true, [⟨[], 2⟩], []⟩)
        [⟨some "A", some "a"⟩, ⟨some "B", some "b"⟩, ⟨some "C", some "c"⟩]).skipped = 1 := by
  have h := claim_C1 [⟨some "A", some "a"⟩, ⟨some "B", some "b"⟩, ⟨some "C", some "c"⟩]
    ⟨true, [⟨[], 2⟩], []⟩ ⟨[], 2⟩ [] rfl
  exact ⟨h.1, by rw [h.2]; decide⟩

/-- C5: `batch_insert_wbs_records` on the empty record list returns the zero-valued
result `(0, 0, "No records")` immediately, issuing no HTTP request at all. -/
theorem claim_C5 (oracle : Nat → V1.BatchBehavior) (batchSize : Nat) :
    V1.batchInsertWbsRecords oracle [] batchSize = ⟨0, 0, 0, "No records"⟩ := rfl

/-- C7: for a non-empty record sequence and positive batch size, the batch slicing
assigns every record to exactly one contiguous batch (flattening the batches gives
back the input), and the returned successful count plus skipped count equals the
total number of input records — whether each batch completed via the bulk path or
via the per-record fallback path. -/
theorem claim_C7 (oracle : Nat → V1.BatchBehavior) (records : List V1.WbsRec)
    (batchSize : Nat) (hne : records ≠ []) (hbs : 0 < batchSize) :
    (chunkList batchSize records).flatten = records ∧
    (V1.batchInsertWbsRecords oracle records batchSize).successful
      + (V1.batchInsertWbsRecords oracle records batchSize).skipped
      = (records.length : Int) := by
  refine ⟨chunkList_flatten _ _, ?_⟩
  have hval := runBatches_sum oracle (chunkList batchSize records)
  have hlen : ((chunkList batchSize records).map List.length).sum = records.length := by
    conv_rhs => rw [← chunkList_flatten batchSize records]
    rw [List.length_flatten]
  have hemp : records.isEmpty = false := by
    cases records with
    | nil => exact absurd rfl hne
    | cons a l => rfl
  simp only [V1.batchInsertWbsRecords, hemp, Bool.false_eq_true, if_false]
  rw [hval, hlen]

/-- Witness for C7: two records, batch size 1, every bulk statement succeeding with
one change; one batch per record and `successful + skipped = 2`. -/
theorem claim_C7_witness :
    (chunkList 1 [(⟨some "A", none⟩ : V1.WbsRec), ⟨some "B", none⟩]).flatten
        = [(⟨some "A", none⟩ : V1.WbsRec), ⟨some "B", none⟩] ∧
    (V1.batchInsertWbsRecords (fun _ => .resp ⟨true, [⟨[], 1⟩], []⟩)
          [⟨some "A", none⟩, ⟨some "B", none⟩] 1).successful
      + (V1.batchInsertWbsRecords (fun _ => .resp ⟨true, [⟨[], 1⟩], []⟩)
          [⟨some "A", none⟩, ⟨some "B", none⟩] 1).skipped = 2 := by
  have h := claim_C7 (fun _ => .resp ⟨true, [⟨[], 1⟩], []⟩)
    [⟨some "A", none⟩, ⟨some "B", none⟩] 1 (by decide) (by decide)
  exact ⟨h.1, by rw [h.2]; decide⟩

theorem insertBatchIndividually_count (f : Nat → V2.InsOutcome) (rs : List V2.Row) :
    V2.insertBatchIndividually f rs
      = (List.range rs.length).countP (fun i => f i == V2.InsOutcome.exc) := by
  induction rs generalizing f with
  | nil => simp [V2.insertBatchIndividually]
  | cons r rs ih =>
    have h := ih (fun i => f (i + 1))
    cases hf : f 0 with
    | ok =>
      simp only [V2.insertBatchIndividually, hf, h, List.length_cons, List.range_succ_eq_map,
        List.countP_cons, List.countP_map]
      rfl
    | exc =>
      simp only [V2.insertBatchIndividually, hf, h, List.length_cons, List.range_succ_eq_map,
        List.countP_cons, List.countP_map]
      rfl

/-- C2 counterexample: in v1's per-record fallback
(`WBSD1Manager._fallback_batch_individual_inserts`), a 3-record batch whose second
individual insert raises yields `successful = 2` and `skipped = 1`: the erroring
record is counted in the skipped tally, and the returned pair carries no failed
count at all — so the claim's "an exception increments the failed count" is false
for this fallback path. -/
theorem claim_C2_counterexample :
    V1.fallbackBatchIndividualInserts
        (fun i => if i = 1 then .exc else .resp ⟨true, [⟨[], 1⟩], []⟩)
        [⟨some "A", some "a"⟩, ⟨some "B", some "b"⟩, ⟨some "C", some "c"⟩]
      = ⟨2, 1, 3⟩ := by decide

/-- C2 (amended): in v2's per-record fallback
(`WBSBulkLoader._insert_batch_individually`), an exception raised while inserting an
individual record increments the failed count for that record only, is never
propagated, and does not abort the remaining records — the failure count equals the
number of erroring records in the batch — and a 3-record batch with 2 successful
and 1 erroring fallback call contributes `inserted = 2, failed = 1` to
`bulk_insert_data`'s totals; in v1's fallback
(`_fallback_batch_individual_inserts`) the exception is likewise caught and the
remaining records processed, but the erroring record is counted as skipped (the
same scenario yields `successful = 2, skipped = 1`, with no failed tally). -/
theorem claim_C2 :
    (∀ (f : Nat → V2.InsOutcome) (rs : List V2.Row),
        V2.insertBatchIndividually f rs
            = (List.range rs.length).countP (fun i => f i == V2.InsOutcome.exc) ∧
        V2.insertBatchIndividually f rs ≤ rs.length) ∧
    V2.bulkInsertData
        (fun k => if k = 0 then .fail (fun i => if i = 1 then .exc else .ok) else .ok)
        [⟨some "A", some "a", []⟩, ⟨some "B", some "b", []⟩, ⟨some "C", some "c", []⟩] 3
      = (2, 1) ∧
    V1.fallbackBatchIndividualInserts
        (fun i => if i = 1 then .exc else .resp ⟨true, [⟨[], 1⟩], []⟩)
        [⟨some "A", some "a"⟩, ⟨some "B", some "b"⟩, ⟨some "C", some "c"⟩]
      = ⟨2, 1, 3⟩ := by
  refine ⟨fun f rs => ?_, by decide, by decide⟩
  have hcount := insertBatchIndividually_count f rs
  refine ⟨hcount, ?_⟩
  rw [hcount]
  calc (List.range rs.length).countP (fun i => f i == V2.InsOutcome.exc)
      ≤ (List.range rs.length).length := List.countP_le_length _
    _ = rs.length := List.length_range _

theorem dropDupAux_sublist (rows : List V2.Row) :
    ∀ seen, List.Sublist (V2.dropDupAux seen rows) rows := by
  induction rows with
  | nil => intro seen; simp [V2.dropDupAux]
  | cons r rs ih =>
    intro seen
    rw [V2.dropDupAux]
    by_cases hm : r.cde ∈ seen
    · rw [if_pos hm]; exact (ih _).cons r
    · rw [if_neg hm]; exact (ih _).cons₂ r

theorem dropDupAux_keys (rows : List V2.Row) :
    ∀ seen, ((V2.dropDupAux seen rows).map V2.Row.cde).Nodup
      ∧ ∀ k ∈ (V2.dropDupAux seen rows).map V2.Row.cde, k ∉ seen := by
  induction rows with
  | nil => intro seen; exact ⟨by simp [V2.dropDupAux], by simp [V2.dropDupAux]⟩
  | cons r rs ih =>
    intro seen
    rw [V2.dropDupAux]
    by_cases hm : r.cde ∈ seen
    · rw [if_pos hm]
      refine ⟨(ih _).1, fun k hk hks => ?_⟩
      exact (ih (r.cde :: seen)).2 k hk (List.mem_cons_of_mem _ hks)
    · rw [if_neg hm]
      obtain ⟨hnd, hnotin⟩ := ih (r.cde :: seen)
      constructor
      · simp only [List.map_cons, List.nodup_cons]
        exact ⟨fun hmem => (hnotin _ hmem) (List.mem_cons_self _ _), hnd⟩
      · intro k hk
        simp only [List.map_cons, List.mem_cons] at hk
        rcases hk with rfl | hk
        · exact hm
        · intro hks; exact (hnotin k hk) (List.mem_cons_of_mem _ hks)

theorem dupCountAux_add_length (rows : List V2.Row) :
    ∀ seen, V2.dupCountAux seen rows + (V2.dropDupAux seen rows).length = rows.length := by
  induction rows with
  | nil => intro seen; simp [V2.dupCountAux, V2.dropDupAux]
  | cons r rs ih =>
    intro seen
    rw [V2.dupCountAux, V2.dropDupAux]
    have h := ih (r.cde :: seen)
    by_cases hm : r.cde ∈ seen
    · rw [if_pos hm, if_pos hm]
      simp only [List.length_cons]
      omega
    · rw [if_neg hm, if_neg hm]
      simp only [List.length_cons]
      omega

theorem dupCountAux_zero_nodup (rows : List V2.Row) :
    ∀ seen, V2.dupCountAux seen rows = 0 →
      (rows.map V2.Row.cde).Nodup ∧ ∀ k ∈ rows.map V2.Row.cde, k ∉ seen := by
  induction rows with
  | nil => intro seen _; exact ⟨List.nodup_nil, by simp⟩
  | cons r rs ih =>
    intro seen h
    rw [V2.dupCountAux] at h
    by_cases hm : r.cde ∈ seen
    · rw [if_pos hm] at h; exfalso; omega
    · rw [if_neg hm] at h
      obtain ⟨hnd, hni⟩ := ih (r.cde :: seen) (by omega)
      constructor
      · simp only [List.map_cons, List.nodup_cons]
        exact ⟨fun hmem => (hni _ hmem) (List.mem_cons_self _ _), hnd⟩
      · intro k hk
        simp only [List.map_cons, List.mem_cons] at hk
        rcases hk with rfl | hk
        · exact hm
        · intro hks; exact (hni k hk) (List.mem_cons_of_mem _ hks)

/-- C3: step 5 of `clean_and_validate_data` deduplicates on the natural key
`WBS_ELEMENT_CDE` keeping the first occurrence in source order: the surviving rows
have pairwise-distinct keys, form an order-preserving subsequence of the input, and
the reported duplicate count is exactly the number of removed rows; concretely, two
rows sharing key "1.1" with names "Design" and "Design v2" normalize to the single
record with name "Design" and a discard count of 1. -/
theorem claim_C3 :
    (∀ rows : List V2.Row,
        ((V2.dedupStep rows).1.map V2.Row.cde).Nodup ∧
        List.Sublist (V2.dedupStep rows).1 rows ∧
        (V2.dedupStep rows).2 = rows.length - (V2.dedupStep rows).1.length) ∧
    V2.dedupStep [⟨some "1.1", some "Design", []⟩, ⟨some "1.1", some "Design v2", []⟩]
      = ([⟨some "1.1", some "Design", []⟩], 1) := by
  refine ⟨fun rows => ?_, by decide⟩
  by_cases hd : 0 < V2.dupCountAux [] rows
  · simp only [V2.dedupStep, hd, if_true]
    refine ⟨(dropDupAux_keys rows []).1, dropDupAux_sublist rows [], ?_⟩
    have := dupCountAux_add_length rows []
    omega
  · simp only [V2.dedupStep, hd, if_false]
    have hz : V2.dupCountAux [] rows = 0 := by omega
    exact ⟨(dupCountAux_zero_nodup rows [] hz).1, List.Sublist.refl _, by omega⟩

/-- C4: `_normalize_indicator` maps a cell whose stripped, case-normalized form is
one of Y/YES/TRUE/1 to exactly "Y", one of N/NO/FALSE/0 to exactly "N", and every
other cell — including an absent cell — to null; the function is total, so it never
raises. -/
theorem claim_C4 :
    V2.normalizeIndicator none = none ∧
    (∀ s : String, pyUpper (pyStrip s) ∈ ["Y", "YES", "TRUE", "1"] →
        V2.normalizeIndicator (some s) = some "Y") ∧
    (∀ s : String, pyUpper (pyStrip s) ∈ ["N", "NO", "FALSE", "0"] →
        V2.normalizeIndicator (some s) = some "N") ∧
    (∀ s : String, pyUpper (pyStrip s) ∉ ["Y", "YES", "TRUE", "1"] →
        pyUpper (pyStrip s) ∉ ["N", "NO", "FALSE", "0"] →
        V2.normalizeIndicator (some s) = none) := by
  refine ⟨rfl, fun s hs => ?_, fun s hs => ?_, fun s h1 h2 => ?_⟩
  · simp [V2.normalizeIndicator, hs]
  · have hny : pyUpper (pyStrip s) ∉ ["Y", "YES", "TRUE", "1"] := by
      intro hy
      simp only [List.mem_cons, List.mem_singleton, List.not_mem_nil, or_false] at hs hy
      rcases hs with h | h | h | h <;> rcases hy with g | g | g | g <;>
        (rw [h] at g; exact absurd g (by decide))
    simp [V2.normalizeIndicator, hny, hs]
  · simp [V2.normalizeIndicator, h1, h2]

/-- Witness for C4: " yEs " normalizes to "Y", "FaLsE" to "N", and "maybe" to null. -/
theorem claim_C4_witness :
    V2.normalizeIndicator (some " yEs ") = some "Y" ∧
    V2.normalizeIndicator (some "FaLsE") = some "N" ∧
    V2.normalizeIndicator (some "maybe") = none :=
  ⟨claim_C4.2.1 " yEs " (by decide), claim_C4.2.2.1 "FaLsE" (by decide),
    claim_C4.2.2.2 "maybe" (by decide) (by decide)⟩

/-- C6: `D1Client.query` turns an HTTP status ≥ 400 into a failure carrying the
status code and response body, turns a parsed envelope whose success flag is false
into a failure carrying the error list, returns a successful envelope verbatim, and
issues exactly one HTTP request per call (no automatic retry in the client). -/
theorem claim_C6 :
    (∀ (code : Nat) (body : String), 400 ≤ code →
        V2.d1Query (.httpError code body) = .error (.remoteFailure code body)) ∧
    (∀ env : Envelope, env.success = false →
        V2.d1Query (.ok env) = .error (.queryFailure env.errors)) ∧
    (∀ env : Envelope, env.success = true → V2.d1Query (.ok env) = .ok env) ∧
    (∀ o : V2.HttpOutcome, V2.d1QueryRequestCount o ≤ 1) := by
  refine ⟨fun code body _ => rfl, fun env h => ?_, fun env h => ?_, fun o => Nat.le_refl 1⟩
  · simp [V2.d1Query, h]
  · simp [V2.d1Query, h]

/-- Witness for C6: a 500 response raises the status-and-body failure, a
success-false envelope raises the error-list failure, and a success-true envelope
is returned verbatim. -/
theorem claim_C6_witness :
    V2.d1Query (.httpError 500 "boom") = .error (.remoteFailure 500 "boom") ∧
    V2.d1Query (.ok ⟨false, [], ["bad sql"]⟩) = .error (.queryFailure ["bad sql"]) ∧
    V2.d1Query (.ok ⟨true, [⟨[], 0⟩], []⟩) = .ok ⟨true, [⟨[], 0⟩], []⟩ :=
  ⟨claim_C6.1 500 "boom" (by decide), claim_C6.2.1 ⟨false, [], ["bad sql"]⟩ rfl,
    claim_C6.2.2.1 ⟨true, [⟨[], 0⟩], []⟩ rfl⟩

theorem pad2_length : ∀ n, n < 100 → (V2.pad2 n).length = 2 := by decide

/-- C8 counterexample: the final branch of `_format_datetime_value` returns
`str(value)` for a value of any other type instead of null — e.g. the integer `42`
(whose `str()` is `"42"`) formats to `"42"`, not null. -/
theorem claim_C8_counterexample :
    V2.formatDatetimeValue (.otherVal "42") = some "42" ∧
    V2.formatDatetimeValue (.otherVal "42") ≠ none :=
  ⟨rfl, by decide⟩

/-- C8 (amended): `_format_datetime_value` formats a time-only value as `HH:MM:SS`
(an 8-character string for in-range fields), a date-time value as
`YYYY-MM-DD HH:MM:SS`, trims and keeps a non-empty string, yields null for an
absent value or a whitespace-only string, and converts a value of any other type to
its Python string representation `str(value)` rather than null. -/
theorem claim_C8 :
    V2.formatDatetimeValue .null = none ∧
    (∀ h m s : Nat, V2.formatDatetimeValue (.timeVal h m s)
        = some (V2.pad2 h ++ ":" ++ V2.pad2 m ++ ":" ++ V2.pad2 s)) ∧
    (∀ h m s : Nat, h < 100 → m < 100 → s < 100 →
        (V2.pad2 h ++ ":" ++ V2.pad2 m ++ ":" ++ V2.pad2 s).length = 8) ∧
    (∀ y mo d h mi s : Nat, V2.formatDatetimeValue (.datetimeVal y mo d h mi s)
        = some (V2.pad4 y ++ "-" ++ V2.pad2 mo ++ "-" ++ V2.pad2 d ++ " " ++
            V2.pad2 h ++ ":" ++ V2.pad2 mi ++ ":" ++ V2.pad2 s)) ∧
    (∀ s : String, pyStrip s = "" → V2.formatDatetimeValue (.strVal s) = none) ∧
    (∀ s : String, pyStrip s ≠ "" → V2.formatDatetimeValue (.strVal s) = some (pyStrip s)) ∧
    (∀ r : String, V2.formatDatetimeValue (.otherVal r) = some r) ∧
    V2.formatDatetimeValue (.timeVal 9 5 7) = some "09:05:07" ∧
    V2.formatDatetimeValue (.datetimeVal 2024 1 2 13 4 5) = some "2024-01-02 13:04:05" := by
  refine ⟨rfl, fun h m s => rfl, fun h m s hh hm hs => ?_, fun y mo d h mi s => rfl,
    fun s he => ?_, fun s hne => ?_, fun r => rfl, by decide, by decide⟩
  · have h1 := pad2_length h hh
    have h2 := pad2_length m hm
    have h3 := pad2_length s hs
    simp only [String.length_append, h1, h2, h3]
    decide
  · simp [V2.formatDatetimeValue, he]
  · simp [V2.formatDatetimeValue, hne]

/-- Witness for C8: in-range time fields give an 8-character rendering, a
whitespace-only string formats to null, and a padded string is trimmed and kept. -/
theorem claim_C8_witness :
    (V2.pad2 10 ++ ":" ++ V2.pad2 2 ++ ":" ++ V2.pad2 33).length = 8 ∧
    V2.formatDatetimeValue (.strVal "  ") = none ∧
    V2.formatDatetimeValue (.strVal " x ") = some (pyStrip " x ") := by
  obtain ⟨-, -, hlen, -, hnull, hkeep, -, -, -⟩ := claim_C8
  exact ⟨hlen 10 2 33 (by decide) (by decide) (by decide),
    hnull "  " (by decide), hkeep " x " (by decide)⟩

/-- C9: `D1Config.from_env` fails exactly when one of the three settings is unset
or empty, with an error enumerating exactly the names of the missing settings
(each of the three names appears in the list iff that setting is blank, with no
duplicates), and returns the configuration triple of the read values when all
three are present. -/
theorem claim_C9 :
    (∀ (e : V2.EnvVars) (l : List String), V2.fromEnv e = .error l →
        (("CF_ACCOUNT_ID" ∈ l ↔ V2.isBlank e.cfAccountId = true) ∧
          ("CF_D1_DATABASE_ID" ∈ l ↔ V2.isBlank e.cfD1DatabaseId = true) ∧
          ("CF_API_TOKEN" ∈ l ↔ V2.isBlank e.cfApiToken = true) ∧
          l ≠ [] ∧ l.Nodup)) ∧
    (∀ e : V2.EnvVars,
        (V2.isBlank e.cfAccountId = true ∨ V2.isBlank e.cfD1DatabaseId = true ∨
          V2.isBlank e.cfApiToken = true) →
        ∃ l, V2.fromEnv e = .error l) ∧
    (∀ a b c : String, a ≠ "" → b ≠ "" → c ≠ "" →
        V2.fromEnv ⟨some a, some b, some c⟩ = .ok ⟨a, b, c⟩) := by
  refine ⟨fun e l hl => ?_, fun e h => ?_, fun a b c ha hb hc => ?_⟩
  · obtain ⟨oa, ob, oc⟩ := e
    cases hA : V2.isBlank oa <;> cases hB : V2.isBlank ob <;> cases hC : V2.isBlank oc <;>
      simp [V2.fromEnv, hA, hB, hC] at hl <;> subst hl <;> simp +decide [hA, hB, hC]
  · obtain ⟨oa, ob, oc⟩ := e
    cases hfe : V2.fromEnv ⟨oa, ob, oc⟩ with
    | error l => exact ⟨l, rfl⟩
    | ok c' =>
      exfalso
      have hne : ((if V2.isBlank oa then ["CF_ACCOUNT_ID"] else []) ++
          (if V2.isBlank ob then ["CF_D1_DATABASE_ID"] else []) ++
          (if V2.isBlank oc then ["CF_API_TOKEN"] else [])).isEmpty = false := by
        rcases h with h | h | h <;> simp [h]
      simp only [V2.fromEnv] at hfe
      rw [hne] at hfe
      simp at hfe
  · simp [V2.fromEnv, V2.isBlank, ha, hb, hc]

/-- Witness for C9: all three settings present yields the triple; account id unset
and token empty yields the error list naming exactly those two settings. -/
theorem claim_C9_witness :
    V2.fromEnv ⟨some "acct", some "db", some "tok"⟩ = .ok ⟨"acct", "db", "tok"⟩ ∧
    (("CF_ACCOUNT_ID" ∈ ["CF_ACCOUNT_ID", "CF_API_TOKEN"]) ↔ V2.isBlank none = true) ∧
    (("CF_D1_DATABASE_ID" ∈ ["CF_ACCOUNT_ID", "CF_API_TOKEN"]) ↔
      V2.isBlank (some "db") = true) := by
  have h1 := claim_C9.2.2 "acct" "db" "tok" (by decide) (by decide) (by decide)
  have h2 := claim_C9.1 ⟨none, some "db", some ""⟩ ["CF_ACCOUNT_ID", "CF_API_TOKEN"] rfl
  exact ⟨h1, h2.1, h2.2.1⟩

/-- C10: the performance-metrics block of v1's `main` runs its divisions only under
the guard `successful > 0`, so with an inserted count of 0 the block is skipped and
no division (in particular no division by zero) occurs; v2's unguarded average-rate
division divides by the elapsed time, not by the inserted count, so an inserted
count of 0 with nonzero elapsed time yields rate 0 rather than a division by
zero. -/
theorem claim_C10 :
    (∀ elapsed : ℚ, V1.perfMetrics 0 elapsed = some none) ∧
    (∀ elapsed : ℚ, elapsed ≠ 0 → V2.avgRateStat 0 elapsed = some 0) := by
  refine ⟨fun e => rfl, fun e he => ?_⟩
  simp [V2.avgRateStat, pydiv, he]

/-- Witness for C10: with inserted = 0 and elapsed time 1 second, v2's average-rate
division evaluates to 0 without raising. -/
theorem claim_C10_witness : V2.avgRateStat 0 1 = some 0 :=
  claim_C10.2 1 one_ne_zero

end CloudflareDbTest
